import Mathlib

/-!
Shallow embedding of the cookie-harvesting core of `src/api/cookies.js`
(`CookieCollectorService` and its express routes), checked against the
natural-language specification.

JavaScript-specific semantics are embedded explicitly: optional fields are
`Option`, JS truthiness is a `Bool`-valued function (`0`, `""`, `null` and
`undefined` are falsy), `Promise.allSettled` outcomes are a dedicated
inductive, and the single mutable `this.cookies` object is modelled with an
explicit reference type so that aliasing through `getCookies` is observable.
-/

/-- A JavaScript value, restricted to the shapes the cookie routes inspect:
numbers (the numeric option fields), strings, booleans, non-null objects, and
`null`. An absent (`undefined`) field is `Option.none` at the use site. -/
inductive JSVal where
  | vnum (n : Int)
  | vstr (s : String)
  | vbool (b : Bool)
  | vobj
  | vnull
deriving DecidableEq

/-- JS truthiness of a value: `0`, `""`, `false` and `null` are falsy. -/
def JSVal.truthy : JSVal → Bool
  | .vnum n => n != 0
  | .vstr s => s != ""
  | .vbool b => b
  | .vobj => true
  | .vnull => false

/-- `typeof v === 'number'`. -/
def JSVal.isNumber : JSVal → Bool
  | .vnum _ => true
  | _ => false

/-- `typeof v === 'object'` (true for `null` as well, per JS). -/
def JSVal.isObject : JSVal → Bool
  | .vobj => true
  | .vnull => true
  | _ => false

/-- Truthiness of a possibly-absent string (`undefined` and `""` are falsy). -/
def jsTruthyStrOpt : Option String → Bool
  | some s => s != ""
  | none => false

/-- Truthiness of a possibly-absent number (`undefined` and `0` are falsy). -/
def jsTruthyIntOpt : Option Int → Bool
  | some n => n != 0
  | none => false

/-- The `this.cookies` object of `CookieCollectorService` (cookies.js lines
23-28): one nullable cookie-header string per built-in site plus the
`lastUpdated` timestamp, all initialised to `null`. -/
structure CookieStore where
  animepahe : Option String
  paheWin : Option String
  kiwik : Option String
  lastUpdated : Option String
deriving DecidableEq

/-- The store as built by the constructor: every field `null`. -/
def initialCookieStore : CookieStore :=
  { animepahe := none, paheWin := none, kiwik := none, lastUpdated := none }

/-- The outcome of one site visit as seen through `Promise.allSettled`
(cookies.js line 243): a fulfilled promise carrying the visit function's
return value (a cookie string, or `null` when its `catch` fired), or a
rejected promise (possible when `browser.newPage()` itself throws, outside
the visit function's `try`). -/
inductive SettledOutcome where
  | fulfilled (value : Option String)
  | rejected
deriving DecidableEq

/-- Does this outcome pass the merge guard
`result.status === 'fulfilled' && result.value` (cookies.js lines 251-259)?
Only a fulfilled outcome with a truthy (non-null, non-empty) string does. -/
def SettledOutcome.installs : SettledOutcome → Bool
  | .fulfilled (some s) => s != ""
  | _ => false

/-- One conditional assignment of the fan-in phase (cookies.js lines 251-259):
`if (r.status === 'fulfilled' && r.value) this.cookies.site = r.value;`.
The previous record is kept whenever the guard fails. -/
def mergeSite (old : Option String) (r : SettledOutcome) : Option String :=
  match r with
  | .fulfilled (some s) => if s != "" then some s else old
  | _ => old

/-- The mutable observable state of `CookieCollectorService` relevant to
collection: the cookie store contents and the `isCollecting` flag. -/
structure ServiceState where
  cookies : CookieStore
  isCollecting : Bool
deriving DecidableEq

/-- `collectAllCookies` (cookies.js lines 233-269) as a state transformer.
The guard (lines 234-237) returns at once when a cycle is running; the guard
check and the `isCollecting = true` assignment are synchronous (no `await`
between them), so the whole entry is one atomic step of the event loop.
Otherwise the three visits are awaited via `Promise.allSettled` (their
settled outcomes are the `rA rP rK` inputs), each fulfilled truthy value is
merged, `lastUpdated` is stamped unconditionally (line 261), and the
`finally` clears `isCollecting`. -/
def collectAllCookies (st : ServiceState) (rA rP rK : SettledOutcome)
    (now : String) : ServiceState :=
  if st.isCollecting then st
  else
    { cookies :=
        { animepahe := mergeSite st.cookies.animepahe rA
          paheWin := mergeSite st.cookies.paheWin rP
          kiwik := mergeSite st.cookies.kiwik rK
          lastUpdated := some now }
      isCollecting := false }

/-- What one guarded trigger observes. -/
inductive TriggerOutcome where
  | proceeded
  | busy
deriving DecidableEq

/-- The atomic entry step of `collectAllCookies` (cookies.js lines 234-239):
given the current `isCollecting` flag, either reject (flag set) or perform
the Idle-to-Running transition and proceed. -/
def guardStep (busy : Bool) : Bool × TriggerOutcome :=
  if busy then (busy, .busy) else (true, .proceeded)

/-- A burst of `n` concurrent guarded triggers. The JS event loop serialises
their synchronous guard sections in arrival order, so the burst is a fold of
`guardStep`; none of the cycles has finished yet, so no step clears the
flag. -/
def processTriggers : Bool → Nat → Bool × List TriggerOutcome
  | b, 0 => (b, [])
  | b, n + 1 =>
    let s := guardStep b
    let rest := processTriggers s.1 n
    (rest.1, s.2 :: rest.2)

/-- The response of `router.post('/refresh')` (cookies.js lines 397-415). -/
inductive RefreshResponse where
  | busyError
  | accepted
deriving DecidableEq

/-- `router.post('/refresh')`: a 429 busy error when `isCollecting` is set,
otherwise it fires `collectAllCookies` (without awaiting it) and responds
success. The returned `Bool` records whether a cycle was started. -/
def refreshRoute (st : ServiceState) : RefreshResponse × Bool :=
  if st.isCollecting then (.busyError, false) else (.accepted, true)

/-- The statement order of the cycle body, transcribed from cookies.js lines
243-261: one `await Promise.allSettled` joining all three site jobs, then the
three conditional merges, then the single unconditional `lastUpdated`
stamp. -/
inductive CycleStep where
  | settleAllJobs
  | mergeAnimepahe
  | mergePaheWin
  | mergeKiwik
  | stampLastUpdated
deriving DecidableEq

/-- The cycle body's steps in source order (cookies.js lines 243-261). -/
def cycleBodySteps : List CycleStep :=
  [.settleAllJobs, .mergeAnimepahe, .mergePaheWin, .mergeKiwik,
   .stampLastUpdated]

/-- The `options` object of a `POST /create` request body (cookies.js line
328): every field may be absent or hold any JS value. -/
structure RawOptions where
  timeout : Option JSVal := none
  waitUntil : Option JSVal := none
  initialWait : Option JSVal := none
  cloudflareWait : Option JSVal := none
  additionalWait : Option JSVal := none
  headers : Option JSVal := none
  viewport : Option JSVal := none
deriving DecidableEq

/-- The `validOptions` object built by the route (cookies.js lines 348-369):
each field is set only when its guard passed, with the numeric fields known
to be numbers and `waitUntil` known to be one of the allowed strings. -/
structure ValidOptions where
  timeout : Option Int := none
  waitUntil : Option String := none
  initialWait : Option Int := none
  cloudflareWait : Option Int := none
  additionalWait : Option Int := none
  headers : Option JSVal := none
  viewport : Option JSVal := none
deriving DecidableEq

/-- The `waitUntil` values accepted by the route (cookies.js line 352). -/
def waitUntilModes : List String :=
  ["load", "domcontentloaded", "networkidle0", "networkidle2"]

/-- The option-validation block of `router.post('/create')` (cookies.js lines
347-369), one truthiness-plus-type-plus-bounds guard per field; a field whose
guard fails is simply not copied into `validOptions`. Note every numeric
guard starts with JS truthiness (`options.field &&`), so the value `0` never
passes even where the explicit bound is `>= 0`. -/
def validateOptions (o : RawOptions) : ValidOptions :=
  { timeout :=
      match o.timeout with
      | some (.vnum n) => if n != 0 && (0 < n && n ≤ 120000) then some n else none
      | _ => none
    waitUntil :=
      match o.waitUntil with
      | some (.vstr s) => if s != "" && waitUntilModes.contains s then some s else none
      | _ => none
    initialWait :=
      match o.initialWait with
      | some (.vnum n) => if n != 0 && (0 ≤ n && n ≤ 30000) then some n else none
      | _ => none
    cloudflareWait :=
      match o.cloudflareWait with
      | some (.vnum n) => if n != 0 && (0 ≤ n && n ≤ 60000) then some n else none
      | _ => none
    additionalWait :=
      match o.additionalWait with
      | some (.vnum n) => if n != 0 && (0 ≤ n && n ≤ 30000) then some n else none
      | _ => none
    headers :=
      match o.headers with
      | some v => if v.truthy && v.isObject then some v else none
      | none => none
    viewport :=
      match o.viewport with
      | some v => if v.truthy && v.isObject then some v else none
      | none => none }

/-- The `options` parameter of `visitCustomUrl` (cookies.js line 172). The
route always passes a `validOptions` object, which never carries
`executeScript`; calling the method directly could supply one. -/
structure VisitOptions where
  timeout : Option Int := none
  waitUntil : Option String := none
  initialWait : Option Int := none
  cloudflareWait : Option Int := none
  additionalWait : Option Int := none
  headers : Option JSVal := none
  viewport : Option JSVal := none
  executeScript : Option String := none
deriving DecidableEq

/-- The route passes `validOptions` straight to `visitCustomUrl` (cookies.js
line 372); the validator never sets `executeScript`. -/
def visitOptionsOfValid (v : ValidOptions) : VisitOptions :=
  { timeout := v.timeout
    waitUntil := v.waitUntil
    initialWait := v.initialWait
    cloudflareWait := v.cloudflareWait
    additionalWait := v.additionalWait
    headers := v.headers
    viewport := v.viewport
    executeScript := none }

/-- JS `x || dflt` on a possibly-absent number: the default is used when the
field is absent or `0` (falsy). -/
def jsOrInt (v : Option Int) (dflt : Int) : Int :=
  match v with
  | some n => if n != 0 then n else dflt
  | none => dflt

/-- JS `x || dflt` on a possibly-absent string. -/
def jsOrString (v : Option String) (dflt : String) : String :=
  match v with
  | some s => if s != "" then s else dflt
  | none => dflt

/-- The navigation and wait parameters `visitCustomUrl` actually uses
(cookies.js lines 187-202): `waitUntil || 'networkidle2'`,
`timeout || 60000`, `initialWait || 5000`, `cloudflareWait || 10000`, and the
additional wait only runs when `options.additionalWait` is truthy. -/
structure EffectiveParams where
  waitUntil : String
  timeout : Int
  initialWait : Int
  cloudflareWait : Int
  runsAdditionalWait : Bool
deriving DecidableEq

/-- Resolve the effective parameters of `visitCustomUrl` from its options. -/
def effectiveParams (o : VisitOptions) : EffectiveParams :=
  { waitUntil := jsOrString o.waitUntil "networkidle2"
    timeout := jsOrInt o.timeout 60000
    initialWait := jsOrInt o.initialWait 5000
    cloudflareWait := jsOrInt o.cloudflareWait 10000
    runsAdditionalWait := jsTruthyIntOpt o.additionalWait }

/-- Does list `l` start with `p`? Structural helper for substring search. -/
def charsStartWith : List Char → List Char → Bool
  | [], _ => true
  | _ :: _, [] => false
  | a :: as, b :: bs => a == b && charsStartWith as bs

/-- Does `pat` occur as a contiguous sublist of `l`? -/
def charsContain (pat : List Char) : List Char → Bool
  | [] => charsStartWith pat []
  | c :: cs => charsStartWith pat (c :: cs) || charsContain pat cs

/-- JS `s.includes(pat)`: substring containment (cookies.js line 195). -/
def strIncludes (s pat : String) : Bool :=
  charsContain pat.toList s.toList

/-- The Cloudflare-challenge heuristic of the visit methods (cookies.js lines
194-198): the page title contains a known interstitial marker. -/
def challengeDetected (title : String) : Bool :=
  strIncludes title "Just a moment" || strIncludes title "Cloudflare"

/-- Events on the page context acquired by a visit method, in the order the
method performs them. `opened` is `browser.newPage()` (the acquisition),
`closed` is the `finally` block's `page.close()` (the release). -/
inductive PageEvent where
  | opened
  | navigated
  | waitedInitial
  | waitedChallenge
  | waitedAdditional
  | ranScript
  | extracted
  | closed
deriving DecidableEq

/-- The external-world behaviour one visit runs against: whether page
acquisition throws, whether navigation throws, the page title the site
serves, whether script evaluation or cookie extraction throws, and the
cookie-header string the page yields on success. -/
structure VisitEnv where
  newPageFails : Bool := false
  gotoFails : Bool := false
  title : String := ""
  scriptFails : Bool := false
  extractFails : Bool := false
  cookieString : String := ""
deriving DecidableEq

/-- The `try` body of `visitCustomUrl` (cookies.js lines 174-218): navigate,
settle wait, challenge check and wait, optional additional wait, optional
script evaluation, cookie extraction. The first throwing step aborts the
body (its result becomes the `catch` value); the event list records the page
operations that ran. -/
def visitBody (env : VisitEnv) (o : VisitOptions) :
    Except String String × List PageEvent :=
  if env.gotoFails then (.error "Navigation failed", [])
  else
    let evs1 := [PageEvent.navigated, PageEvent.waitedInitial]
    let evs2 := if challengeDetected env.title
                then evs1 ++ [PageEvent.waitedChallenge] else evs1
    let evs3 := if jsTruthyIntOpt o.additionalWait
                then evs2 ++ [PageEvent.waitedAdditional] else evs2
    match o.executeScript with
    | some _ =>
      if env.scriptFails then (.error "Script evaluation failed", evs3)
      else
        let evs4 := evs3 ++ [PageEvent.ranScript]
        if env.extractFails then (.error "Cookie extraction failed", evs4)
        else (.ok env.cookieString, evs4 ++ [PageEvent.extracted])
    | none =>
      if env.extractFails then (.error "Cookie extraction failed", evs3)
      else (.ok env.cookieString, evs3 ++ [PageEvent.extracted])

/-- What `visitCustomUrl` hands back to its caller: its success object, its
failure object (built in its `catch`), or a thrown exception when
`browser.newPage()` itself rejected (line 173 sits outside the `try`). -/
inductive VisitOutcome where
  | ok (cookies : String)
  | failed (err : String)
  | thrown (err : String)
deriving DecidableEq

/-- `visitCustomUrl` (cookies.js lines 172-231): acquire a page (outside the
`try`, so an acquisition failure propagates as a rejection with no page to
release), run the body, convert a body error into the `success: false`
result via `catch`, and close the page in `finally` on both paths. -/
def visitCustomUrl (env : VisitEnv) (o : VisitOptions) :
    VisitOutcome × List PageEvent :=
  if env.newPageFails then (.thrown "newPage failed", [])
  else
    let r := visitBody env o
    (match r.1 with
     | .ok cs => .ok cs
     | .error e => .failed e,
     PageEvent.opened :: (r.2 ++ [PageEvent.closed]))

/-- The `try` body of `visitAnimepahe` (cookies.js lines 75-97): fixed
target, fixed waits, challenge heuristic, cookie extraction; no additional
wait and no script step. -/
def visitAnimepaheBody (env : VisitEnv) :
    Except String String × List PageEvent :=
  if env.gotoFails then (.error "Navigation failed", [])
  else
    let evs1 := [PageEvent.navigated, PageEvent.waitedInitial]
    let evs2 := if challengeDetected env.title
                then evs1 ++ [PageEvent.waitedChallenge] else evs1
    if env.extractFails then (.error "Cookie extraction failed", evs2)
    else (.ok env.cookieString, evs2 ++ [PageEvent.extracted])

/-- `visitAnimepahe` (cookies.js lines 73-104) as a settled promise: its
`catch` turns any body error into a `null` return (a fulfilled promise), its
`finally` closes the page on both paths, and a `browser.newPage()` rejection
(outside the `try`) surfaces as a rejected promise with no page acquired. -/
def visitAnimepahe (env : VisitEnv) : SettledOutcome × List PageEvent :=
  if env.newPageFails then (.rejected, [])
  else
    let r := visitAnimepaheBody env
    (match r.1 with
     | .ok cs => .fulfilled (some cs)
     | .error _ => .fulfilled none,
     PageEvent.opened :: (r.2 ++ [PageEvent.closed]))

/-- A character allowed in a URL scheme after its first character
(letters, digits, `+`, `-`, `.`). -/
def isSchemeChar (c : Char) : Bool :=
  c.isAlpha || c.isDigit || c == '+' || c == '-' || c == '.'

/-- Consume a scheme up to the first `':'`: returns the scheme characters
when every character before the colon is a scheme character, `none` when the
string has no colon or an illegal character before it. -/
def takeScheme : List Char → Option (List Char)
  | [] => none
  | c :: cs =>
    if c == ':' then some []
    else if isSchemeChar c then
      match takeScheme cs with
      | some p => some (c :: p)
      | none => none
    else none

/-- The platform `new URL(string)` constructor reduced to what the route
inspects: parsing succeeds iff the string is an absolute URL (a nonempty
scheme starting with a letter, then `':'`), and `protocol` is the lowercased
scheme followed by `':'` (cookies.js lines 289-296 and 338). -/
def urlProtocol (s : String) : Option String :=
  match takeScheme s.toList with
  | some [] => none
  | some (c :: p) =>
    if c.isAlpha then
      some (String.mk (((c :: p).map Char.toLower)) ++ ":")
    else none
  | none => none

/-- `isValidUrl` (cookies.js lines 289-296): `new URL(string)` parses. -/
def isValidUrl (s : String) : Bool :=
  (urlProtocol s).isSome

/-- Is the string an absolute URL whose protocol is exactly `https:`? This is
the condition under which `router.post('/create')` reaches the busy check
and the browser work. -/
def urlIsHttps (u : String) : Bool :=
  match urlProtocol u with
  | some pr => pr == "https:"
  | none => false

/-- The responses `router.post('/create')` can produce (cookies.js lines
326-395): the three 400-level format rejections, the 429 busy rejection, the
visit result (success or failure JSON), or the 500 of the outer catch. -/
inductive CreateResponse where
  | missingUrl
  | invalidFormat
  | httpsOnly
  | busyError
  | visitOk (cookies : String)
  | visitFailed (err : String)
  | internalError
deriving DecidableEq

/-- What one `POST /create` request produced: the HTTP response, whether a
page context was ever acquired, and the service state afterwards. -/
structure CreateResult where
  response : CreateResponse
  pageAcquired : Bool
  finalState : ServiceState
deriving DecidableEq

/-- `router.post('/create')` (cookies.js lines 326-395): reject a missing or
falsy `url`, then an unparsable one, then a non-`https` protocol, then a
busy service; otherwise validate the options and run `visitCustomUrl`,
mapping its result to the response (a thrown rejection hits the outer catch
and becomes a 500). The route never writes the service state. -/
def createRoute (st : ServiceState) (url : Option String) (opts : RawOptions)
    (env : VisitEnv) : CreateResult :=
  match url with
  | none => ⟨.missingUrl, false, st⟩
  | some u =>
    if u == "" then ⟨.missingUrl, false, st⟩
    else if !isValidUrl u then ⟨.invalidFormat, false, st⟩
    else
      match urlProtocol u with
      | none => ⟨.invalidFormat, false, st⟩
      | some pr =>
        if pr != "https:" then ⟨.httpsOnly, false, st⟩
        else if st.isCollecting then ⟨.busyError, false, st⟩
        else
          let v := validateOptions opts
          let run := visitCustomUrl env (visitOptionsOfValid v)
          let acquired := run.2.contains PageEvent.opened
          match run.1 with
          | .ok cs => ⟨.visitOk cs, acquired, st⟩
          | .failed e => ⟨.visitFailed e, acquired, st⟩
          | .thrown _ => ⟨.internalError, acquired, st⟩

/-- The responses of `router.get('/')` (cookies.js lines 299-324): the 503
served while `lastUpdated` is still falsy, or the snapshot JSON copying the
three records and the timestamp. -/
inductive GetResponse where
  | notYetCollected
  | okView (animepahe pahewin kiwik : Option String) (lastUpdated : String)
deriving DecidableEq

/-- `router.get('/')`: serve 503 until `cookies.lastUpdated` is truthy, then
a fresh response object copying the current record fields. -/
def getRoute (st : ServiceState) : GetResponse :=
  match st.cookies.lastUpdated with
  | none => .notYetCollected
  | some t =>
    if t == "" then .notYetCollected
    else .okView st.cookies.animepahe st.cookies.paheWin st.cookies.kiwik t

/-- The lifecycle state `destroy` touches (cookies.js lines 275-282): the
`collectionInterval` and `browser` fields (which `destroy` reads but never
nulls out), plus the observable effects - whether the periodic timer is
still scheduled and whether the browser process is still open. -/
structure LifecycleState where
  collectionInterval : Option Nat
  browser : Option Nat
  timerActive : Bool
  browserOpen : Bool
deriving DecidableEq

/-- `clearInterval(id)`: descheduling a timer; per the host timer API this is
a no-op when the handle was already cleared. -/
def clearIntervalFx (s : LifecycleState) : LifecycleState :=
  { s with timerActive := false }

/-- `browser.close()`: best-effort close of the browser process; closing an
already-closed browser leaves it closed (spec section 4.1: best-effort,
idempotent teardown). -/
def browserCloseFx (s : LifecycleState) : LifecycleState :=
  { s with browserOpen := false }

/-- `destroy` (cookies.js lines 275-282): clear the periodic timer if the
`collectionInterval` field is set, close the browser if the `browser` field
is set. Neither field is assigned, so a second call re-runs both effects. -/
def destroy (s : LifecycleState) : LifecycleState :=
  let s1 := if s.collectionInterval.isSome then clearIntervalFx s else s
  if s1.browser.isSome then browserCloseFx s1 else s1

/-- The reference `getCookies` returns. The constructor allocates exactly one
cookies object (cookies.js lines 23-28) and no code ever rebinds
`this.cookies` - the cycle assigns its properties in place (lines 251-261) -
so a single reference constructor suffices. -/
inductive CookieRef where
  | serviceCookies
deriving DecidableEq

/-- `getCookies` (cookies.js lines 271-273): returns `this.cookies` itself,
a reference to the live object, not a copy. -/
def getCookies (_st : ServiceState) : CookieRef :=
  .serviceCookies

/-- Dereference a cookies reference against the current service state: the
one cookies object always holds the state's current store contents. -/
def readRef (st : ServiceState) (r : CookieRef) : CookieStore :=
  match r with
  | .serviceCookies => st.cookies

/-! Helper lemmas. -/

theorem processTriggers_running (n : Nat) :
    processTriggers true n = (true, List.replicate n TriggerOutcome.busy) := by
  induction n with
  | zero => rfl
  | succ k ih => simp [processTriggers, guardStep, ih, List.replicate_succ]

theorem mergeSite_keeps (old : Option String) (r : SettledOutcome)
    (h : r.installs = false) : mergeSite old r = old := by
  cases r with
  | rejected => rfl
  | fulfilled v =>
    cases v with
    | none => rfl
    | some s =>
      simp [SettledOutcome.installs] at h
      simp [mergeSite, h]

theorem mergeSite_installs (old : Option String) (s : String) (h : s ≠ "") :
    mergeSite old (.fulfilled (some s)) = some s := by
  simp [mergeSite, h]

/-! The claims. -/

/-- Claim C1: single-flight guard on guarded collection cycles. In a burst of
`n ≥ 2` concurrent guarded triggers whose guard sections the event loop
serialises, a burst arriving while a cycle is `Running` is rejected in full
(`n` busy outcomes, state unchanged, nothing queued), a burst arriving at
`Idle` lets exactly its first trigger perform the Idle-to-Running transition
and proceed while all `n - 1` others are rejected, and the `/refresh` route
answers its busy error (HTTP 429) whenever `isCollecting` is set. -/
theorem claim_c1_single_flight (n : Nat) (st : ServiceState) (hn : 2 ≤ n)
    (h : st.isCollecting = true) :
    processTriggers true n = (true, List.replicate n TriggerOutcome.busy) ∧
    processTriggers false n =
      (true, TriggerOutcome.proceeded :: List.replicate (n - 1) TriggerOutcome.busy) ∧
    refreshRoute st = (RefreshResponse.busyError, false) := by
  refine ⟨processTriggers_running n, ?_, ?_⟩
  · cases n with
    | zero => omega
    | succ m => simp [processTriggers, guardStep, processTriggers_running m]
  · simp [refreshRoute, h]

/-- Witness for C1 at a burst of three triggers and a busy service state. -/
theorem claim_c1_single_flight_witness :
    processTriggers true 3 = (true, List.replicate 3 TriggerOutcome.busy) ∧
    processTriggers false 3 =
      (true, TriggerOutcome.proceeded :: List.replicate (3 - 1) TriggerOutcome.busy) ∧
    refreshRoute { cookies := initialCookieStore, isCollecting := true } =
      (RefreshResponse.busyError, false) :=
  claim_c1_single_flight 3 { cookies := initialCookieStore, isCollecting := true }
    (by decide) rfl

/-- Claim C2: per-site failure isolation of a collection cycle. In any cycle
that runs (the guard passed), every site whose settled outcome fails the
merge guard keeps its pre-cycle record exactly, every site whose job
succeeded with a non-empty cookie string gets its new record installed, and
the cycle stamps `lastUpdated`; one site's failure never touches another
site's entry. -/
theorem claim_c2_failure_preserves_records (st : ServiceState)
    (rA rP rK : SettledOutcome) (now : String) (h : st.isCollecting = false) :
    ((collectAllCookies st rA rP rK now).cookies.animepahe =
        mergeSite st.cookies.animepahe rA) ∧
    ((collectAllCookies st rA rP rK now).cookies.paheWin =
        mergeSite st.cookies.paheWin rP) ∧
    ((collectAllCookies st rA rP rK now).cookies.kiwik =
        mergeSite st.cookies.kiwik rK) ∧
    (rA.installs = false →
      (collectAllCookies st rA rP rK now).cookies.animepahe = st.cookies.animepahe) ∧
    (rP.installs = false →
      (collectAllCookies st rA rP rK now).cookies.paheWin = st.cookies.paheWin) ∧
    (rK.installs = false →
      (collectAllCookies st rA rP rK now).cookies.kiwik = st.cookies.kiwik) ∧
    (∀ s, s ≠ "" → rA = .fulfilled (some s) →
      (collectAllCookies st rA rP rK now).cookies.animepahe = some s) ∧
    (∀ s, s ≠ "" → rP = .fulfilled (some s) →
      (collectAllCookies st rA rP rK now).cookies.paheWin = some s) ∧
    (∀ s, s ≠ "" → rK = .fulfilled (some s) →
      (collectAllCookies st rA rP rK now).cookies.kiwik = some s) ∧
    (collectAllCookies st rA rP rK now).cookies.lastUpdated = some now := by
  have hrun : collectAllCookies st rA rP rK now =
      { cookies :=
          { animepahe := mergeSite st.cookies.animepahe rA
            paheWin := mergeSite st.cookies.paheWin rP
            kiwik := mergeSite st.cookies.kiwik rK
            lastUpdated := some now }
        isCollecting := false } := by
    simp [collectAllCookies, h]
  rw [hrun]
  refine ⟨rfl, rfl, rfl, fun hf => mergeSite_keeps _ _ hf,
    fun hf => mergeSite_keeps _ _ hf, fun hf => mergeSite_keeps _ _ hf,
    ?_, ?_, ?_, rfl⟩
  · rintro s hs rfl; exact mergeSite_installs _ _ hs
  · rintro s hs rfl; exact mergeSite_installs _ _ hs
  · rintro s hs rfl; exact mergeSite_installs _ _ hs

/-- The concrete pre-cycle state used by the C2 witness: sites animepahe and
pahe.win hold prior records, kwik.si has none, and the service is idle. -/
def c2PriorState : ServiceState :=
  { cookies :=
      { animepahe := some "a=1", paheWin := some "b=2", kiwik := none,
        lastUpdated := some "2024-01-01T00:00:00Z" }
    isCollecting := false }

/-- Witness for C2: animepahe's job rejects, pahe.win's job succeeds with a
new value, kwik.si's job returns null. -/
theorem claim_c2_failure_preserves_records_witness :
    ((collectAllCookies c2PriorState .rejected (.fulfilled (some "b=9"))
        (.fulfilled none) "T1").cookies.animepahe =
      mergeSite c2PriorState.cookies.animepahe .rejected) ∧
    ((collectAllCookies c2PriorState .rejected (.fulfilled (some "b=9"))
        (.fulfilled none) "T1").cookies.paheWin =
      mergeSite c2PriorState.cookies.paheWin (.fulfilled (some "b=9"))) ∧
    ((collectAllCookies c2PriorState .rejected (.fulfilled (some "b=9"))
        (.fulfilled none) "T1").cookies.kiwik =
      mergeSite c2PriorState.cookies.kiwik (.fulfilled none)) ∧
    (SettledOutcome.rejected.installs = false →
      (collectAllCookies c2PriorState .rejected (.fulfilled (some "b=9"))
        (.fulfilled none) "T1").cookies.animepahe = c2PriorState.cookies.animepahe) ∧
    ((SettledOutcome.fulfilled (some "b=9")).installs = false →
      (collectAllCookies c2PriorState .rejected (.fulfilled (some "b=9"))
        (.fulfilled none) "T1").cookies.paheWin = c2PriorState.cookies.paheWin) ∧
    ((SettledOutcome.fulfilled none).installs = false →
      (collectAllCookies c2PriorState .rejected (.fulfilled (some "b=9"))
        (.fulfilled none) "T1").cookies.kiwik = c2PriorState.cookies.kiwik) ∧
    (∀ s, s ≠ "" → SettledOutcome.rejected = .fulfilled (some s) →
      (collectAllCookies c2PriorState .rejected (.fulfilled (some "b=9"))
        (.fulfilled none) "T1").cookies.animepahe = some s) ∧
    (∀ s, s ≠ "" → SettledOutcome.fulfilled (some "b=9") = .fulfilled (some s) →
      (collectAllCookies c2PriorState .rejected (.fulfilled (some "b=9"))
        (.fulfilled none) "T1").cookies.paheWin = some s) ∧
    (∀ s, s ≠ "" → SettledOutcome.fulfilled none = .fulfilled (some s) →
      (collectAllCookies c2PriorState .rejected (.fulfilled (some "b=9"))
        (.fulfilled none) "T1").cookies.kiwik = some s) ∧
    (collectAllCookies c2PriorState .rejected (.fulfilled (some "b=9"))
      (.fulfilled none) "T1").cookies.lastUpdated = some "T1" :=
  claim_c2_failure_preserves_records c2PriorState .rejected
    (.fulfilled (some "b=9")) (.fulfilled none) "T1" rfl

/-- Claim C3: the `lastUpdated` stamp. Whenever a cycle runs, `lastUpdated`
is set to the cycle's completion time unconditionally - in particular even
when every site job failed or rejected - while a guarded-out call changes
nothing; and in the transcribed source order of the cycle body the single
stamp statement comes after the one fan-in join of all three site jobs. -/
theorem claim_c3_last_updated_stamp (st : ServiceState)
    (rA rP rK : SettledOutcome) (now : String) :
    (st.isCollecting = false →
      (collectAllCookies st rA rP rK now).cookies.lastUpdated = some now) ∧
    (st.isCollecting = true → collectAllCookies st rA rP rK now = st) ∧
    cycleBodySteps.count CycleStep.stampLastUpdated = 1 ∧
    cycleBodySteps.indexOf CycleStep.settleAllJobs <
      cycleBodySteps.indexOf CycleStep.stampLastUpdated := by
  refine ⟨?_, ?_, by decide, by decide⟩
  · intro h; simp [collectAllCookies, h]
  · intro h; simp [collectAllCookies, h]

/-- Witness for C3 at a cycle in which every site job failed. -/
theorem claim_c3_last_updated_stamp_witness :
    ((collectAllCookies { cookies := initialCookieStore, isCollecting := false }
        .rejected (.fulfilled none) .rejected "T9").cookies.lastUpdated = some "T9") ∧
    (collectAllCookies { cookies := initialCookieStore, isCollecting := true }
        .rejected (.fulfilled none) .rejected "T9" =
      { cookies := initialCookieStore, isCollecting := true }) :=
  ⟨(claim_c3_last_updated_stamp { cookies := initialCookieStore, isCollecting := false }
      .rejected (.fulfilled none) .rejected "T9").1 rfl,
   (claim_c3_last_updated_stamp { cookies := initialCookieStore, isCollecting := true }
      .rejected (.fulfilled none) .rejected "T9").2.1 rfl⟩

/-- Claim C4: the option validator drops each out-of-bounds field
individually, falling back to that field's built-in default, preserves each
in-bounds field, and never rejects the request (`validateOptions` is a total
function). In particular for `{timeout: 999999, waitUntil: "load"}` the
over-limit timeout is dropped (so the visit uses the 60000 default) while
`waitUntil` is kept; and in general a numeric `timeout` is kept exactly when
it lies in (0, 120000] and a string `waitUntil` exactly when it is one of
the allowed modes, each depending only on its own raw field. -/
theorem claim_c4_validator_drops_per_field (o : RawOptions) (n : Int)
    (s : String) (hn : o.timeout = some (.vnum n))
    (hs : o.waitUntil = some (.vstr s)) :
    (validateOptions
        { timeout := some (.vnum 999999), waitUntil := some (.vstr "load") } =
      { waitUntil := some "load" }) ∧
    ((effectiveParams (visitOptionsOfValid (validateOptions
        { timeout := some (.vnum 999999),
          waitUntil := some (.vstr "load") }))).timeout = 60000) ∧
    ((effectiveParams (visitOptionsOfValid (validateOptions
        { timeout := some (.vnum 999999),
          waitUntil := some (.vstr "load") }))).waitUntil = "load") ∧
    ((validateOptions o).timeout =
      if 0 < n ∧ n ≤ 120000 then some n else none) ∧
    ((validateOptions o).waitUntil =
      if s ∈ waitUntilModes then some s else none) := by
  refine ⟨by decide, by decide, by decide, ?_, ?_⟩
  · simp only [validateOptions, hn]
    split_ifs with h1 h2 h2 <;> first
      | rfl
      | (simp only [Bool.and_eq_true, bne_iff_ne, ne_eq,
          decide_eq_true_eq] at h1; omega)
  · simp only [validateOptions, hs]
    by_cases hm : s ∈ waitUntilModes
    · have h1 : waitUntilModes.contains s = true := List.elem_iff.mpr hm
      have h2 : s ≠ "" := by
        rintro rfl
        simp [waitUntilModes] at hm
      simp [hm, h1, h2]
    · have h1 : waitUntilModes.contains s = false := by
        cases hc : waitUntilModes.contains s
        · rfl
        · exact absurd (List.elem_iff.mp hc) hm
      simp [hm, h1]

/-- Witness for C4 at the spec's own example input. -/
theorem claim_c4_validator_drops_per_field_witness :
    (validateOptions
        { timeout := some (.vnum 999999), waitUntil := some (.vstr "load") } =
      { waitUntil := some "load" }) ∧
    ((effectiveParams (visitOptionsOfValid (validateOptions
        { timeout := some (.vnum 999999),
          waitUntil := some (.vstr "load") }))).timeout = 60000) ∧
    ((effectiveParams (visitOptionsOfValid (validateOptions
        { timeout := some (.vnum 999999),
          waitUntil := some (.vstr "load") }))).waitUntil = "load") ∧
    ((validateOptions
        { timeout := some (.vnum 999999),
          waitUntil := some (.vstr "load") }).timeout = none) ∧
    ((validateOptions
        { timeout := some (.vnum 999999),
          waitUntil := some (.vstr "load") }).waitUntil = some "load") := by
  have h := claim_c4_validator_drops_per_field
    { timeout := some (.vnum 999999), waitUntil := some (.vstr "load") }
    999999 "load" rfl rfl
  refine ⟨h.1, h.2.1, h.2.2.1, ?_, ?_⟩
  · rw [h.2.2.2.1]; decide
  · rw [h.2.2.2.2]; decide

/-- Claim C5 is false on the code: every numeric guard of the validator
begins with JS truthiness (`options.field &&`, cookies.js lines 355-363), so
the in-bounds value `0` is dropped for `initialWait`, `cloudflareWait` and
`additionalWait` alike, and `visitCustomUrl` then applies its defaults
(`options.initialWait || 5000`, line 192). This counterexample evaluates the
validator at `{initialWait: 0, cloudflareWait: 0, additionalWait: 0}`. -/
theorem claim_c5_zero_wait_counterexample :
    ((validateOptions
        { initialWait := some (.vnum 0), cloudflareWait := some (.vnum 0),
          additionalWait := some (.vnum 0) }).initialWait ≠ some 0) ∧
    (validateOptions
        { initialWait := some (.vnum 0), cloudflareWait := some (.vnum 0),
          additionalWait := some (.vnum 0) } = {}) ∧
    (effectiveParams (visitOptionsOfValid (validateOptions
        { initialWait := some (.vnum 0), cloudflareWait := some (.vnum 0),
          additionalWait := some (.vnum 0) })) =
      { waitUntil := "networkidle2", timeout := 60000, initialWait := 5000,
        cloudflareWait := 10000, runsAdditionalWait := false }) :=
  ⟨by decide, by decide, by decide⟩

/-- Claim C5 amended: a wait-field value is preserved exactly when it is
strictly positive and within the upper bound - the effective bounds are
(0, 30000], (0, 60000] and (0, 30000] - while the value `0`, although inside
the spec's stated closed bounds, is dropped and the built-in default used. -/
theorem claim_c5_zero_wait_amended (n : Int) :
    ((validateOptions { initialWait := some (.vnum n) }).initialWait =
      if 0 < n ∧ n ≤ 30000 then some n else none) ∧
    ((validateOptions { cloudflareWait := some (.vnum n) }).cloudflareWait =
      if 0 < n ∧ n ≤ 60000 then some n else none) ∧
    ((validateOptions { additionalWait := some (.vnum n) }).additionalWait =
      if 0 < n ∧ n ≤ 30000 then some n else none) ∧
    (0 < n → n ≤ 30000 →
      (effectiveParams (visitOptionsOfValid (validateOptions
        { initialWait := some (.vnum n) }))).initialWait = n) := by
  refine ⟨?_, ?_, ?_, ?_⟩
  · simp only [validateOptions]
    split_ifs with h1 h2 h2 <;> first
      | rfl
      | (simp only [Bool.and_eq_true, bne_iff_ne, ne_eq,
          decide_eq_true_eq] at h1; omega)
  · simp only [validateOptions]
    split_ifs with h1 h2 h2 <;> first
      | rfl
      | (simp only [Bool.and_eq_true, bne_iff_ne, ne_eq,
          decide_eq_true_eq] at h1; omega)
  · simp only [validateOptions]
    split_ifs with h1 h2 h2 <;> first
      | rfl
      | (simp only [Bool.and_eq_true, bne_iff_ne, ne_eq,
          decide_eq_true_eq] at h1; omega)
  · intro hpos hle
    have h0 : n ≠ 0 := by omega
    have h0' : 0 ≤ n := by omega
    simp [validateOptions, visitOptionsOfValid, effectiveParams, jsOrInt,
      jsTruthyIntOpt, h0, h0', hpos, hle]

/-- Witness for C5's amended claim at the in-bounds value 7. -/
theorem claim_c5_zero_wait_amended_witness :
    ((validateOptions { initialWait := some (.vnum 7) }).initialWait = some 7) ∧
    ((validateOptions { cloudflareWait := some (.vnum 7) }).cloudflareWait = some 7) ∧
    ((validateOptions { additionalWait := some (.vnum 7) }).additionalWait = some 7) ∧
    ((effectiveParams (visitOptionsOfValid (validateOptions
        { initialWait := some (.vnum 7) }))).initialWait = 7) := by
  have h := claim_c5_zero_wait_amended 7
  refine ⟨?_, ?_, ?_, h.2.2.2 (by decide) (by decide)⟩
  · rw [h.1]; decide
  · rw [h.2.1]; decide
  · rw [h.2.2.1]; decide

/-- The idle service state before the cycle used in the C6 counterexample:
animepahe holds a prior record and a snapshot reference is taken here. -/
def c6Before : ServiceState :=
  { cookies :=
      { animepahe := some "old=1", paheWin := none, kiwik := none,
        lastUpdated := some "2024-01-01T00:00:00Z" }
    isCollecting := false }

/-- The state after a subsequent cycle installs a new animepahe record. -/
def c6After : ServiceState :=
  collectAllCookies c6Before (.fulfilled (some "new=2")) .rejected .rejected
    "2024-01-01T00:30:00Z"

/-- Claim C6 is false on the code: `getCookies` returns `this.cookies`
itself (cookies.js line 272), a reference to the one mutable object the
cycle updates in place (lines 251-261), not an immutable copy. Dereferencing
the snapshot reference taken before the cycle yields a different store value
after the cycle, so a subsequently executed merge does alter a previously
returned snapshot. -/
theorem claim_c6_snapshot_counterexample :
    (readRef c6After (getCookies c6Before) ≠
      readRef c6Before (getCookies c6Before)) ∧
    (readRef c6After (getCookies c6Before)).animepahe = some "new=2" ∧
    (readRef c6Before (getCookies c6Before)).animepahe = some "old=1" :=
  ⟨by decide, by decide, by decide⟩

/-- Claim C6 amended: `getCookies` returns a live reference to the single
mutable cookies object, so any previously returned snapshot observes the
current store - after a cycle it shows the post-merge records and the new
`lastUpdated`, not the point-in-time view the caller took it at. (The HTTP
`GET /` handler, by contrast, copies the fields into a fresh response object
per request.) -/
theorem claim_c6_snapshot_amended (st : ServiceState)
    (rA rP rK : SettledOutcome) (now : String) (r : CookieRef)
    (h : st.isCollecting = false) :
    readRef (collectAllCookies st rA rP rK now) r =
      (collectAllCookies st rA rP rK now).cookies ∧
    (readRef (collectAllCookies st rA rP rK now)
        (getCookies st)).lastUpdated = some now := by
  refine ⟨by cases r; rfl, ?_⟩
  simp [readRef, getCookies, collectAllCookies, h]

/-- Witness for C6's amended claim at the counterexample's states. -/
theorem claim_c6_snapshot_amended_witness :
    readRef c6After (getCookies c6Before) = c6After.cookies ∧
    (readRef c6After (getCookies c6Before)).lastUpdated =
      some "2024-01-01T00:30:00Z" :=
  claim_c6_snapshot_amended c6Before (.fulfilled (some "new=2")) .rejected
    .rejected "2024-01-01T00:30:00Z" (getCookies c6Before) rfl

/-- Claim C7: a `POST /create` whose `url` is not an absolute `https` URL is
rejected by one of the three 400-level format checks before the busy check
and before `visitCustomUrl` runs: no page context is acquired and the
service state is returned unchanged. -/
theorem claim_c7_https_fail_fast (st : ServiceState) (u : String)
    (opts : RawOptions) (env : VisitEnv) (h : urlIsHttps u = false) :
    ((createRoute st (some u) opts env).response = CreateResponse.missingUrl ∨
     (createRoute st (some u) opts env).response = CreateResponse.invalidFormat ∨
     (createRoute st (some u) opts env).response = CreateResponse.httpsOnly) ∧
    (createRoute st (some u) opts env).pageAcquired = false ∧
    (createRoute st (some u) opts env).finalState = st := by
  have key : createRoute st (some u) opts env =
        ⟨CreateResponse.missingUrl, false, st⟩ ∨
      createRoute st (some u) opts env =
        ⟨CreateResponse.invalidFormat, false, st⟩ ∨
      createRoute st (some u) opts env =
        ⟨CreateResponse.httpsOnly, false, st⟩ := by
    unfold createRoute
    cases h0 : (u == "") with
    | true => left; simp [h0]
    | false =>
      cases h1 : isValidUrl u with
      | false => right; left; simp [h0, h1]
      | true =>
        cases hp : urlProtocol u with
        | none => right; left; simp [h0, h1, hp]
        | some pr =>
          have hpr : (pr == "https:") = false := by
            have h' := h
            unfold urlIsHttps at h'
            rw [hp] at h'
            exact h'
          right; right
          simp [h0, h1, hp, hpr, bne]
  rcases key with hk | hk | hk
  · rw [hk]; exact ⟨Or.inl rfl, rfl, rfl⟩
  · rw [hk]; exact ⟨Or.inr (Or.inl rfl), rfl, rfl⟩
  · rw [hk]; exact ⟨Or.inr (Or.inr rfl), rfl, rfl⟩

/-- Witness for C7 at the spec's example input `http://example.com`. -/
theorem claim_c7_https_fail_fast_witness :
    ((createRoute { cookies := initialCookieStore, isCollecting := false }
        (some "http://example.com") {} {}).response = CreateResponse.missingUrl ∨
     (createRoute { cookies := initialCookieStore, isCollecting := false }
        (some "http://example.com") {} {}).response = CreateResponse.invalidFormat ∨
     (createRoute { cookies := initialCookieStore, isCollecting := false }
        (some "http://example.com") {} {}).response = CreateResponse.httpsOnly) ∧
    (createRoute { cookies := initialCookieStore, isCollecting := false }
        (some "http://example.com") {} {}).pageAcquired = false ∧
    (createRoute { cookies := initialCookieStore, isCollecting := false }
        (some "http://example.com") {} {}).finalState =
      { cookies := initialCookieStore, isCollecting := false } :=
  claim_c7_https_fail_fast { cookies := initialCookieStore, isCollecting := false }
    "http://example.com" {} {} (by decide)

/-- The event list of the `try` body of `visitCustomUrl` never contains the
acquisition or release events: those live outside the body. -/
theorem visitBody_no_page_boundary (env : VisitEnv) (o : VisitOptions) :
    PageEvent.closed ∉ (visitBody env o).2 ∧
    PageEvent.opened ∉ (visitBody env o).2 := by
  unfold visitBody
  cases hg : env.gotoFails with
  | true => simp
  | false =>
    cases ho : o.executeScript <;>
      cases hc : challengeDetected env.title <;>
      cases ha : jsTruthyIntOpt o.additionalWait <;>
      cases hs : env.scriptFails <;>
      cases he : env.extractFails <;>
      simp

/-- The event list of the `try` body of `visitAnimepahe` never contains the
acquisition or release events. -/
theorem visitAnimepaheBody_no_page_boundary (env : VisitEnv) :
    PageEvent.closed ∉ (visitAnimepaheBody env).2 ∧
    PageEvent.opened ∉ (visitAnimepaheBody env).2 := by
  unfold visitAnimepaheBody
  cases hg : env.gotoFails with
  | true => simp
  | false =>
    cases hc : challengeDetected env.title <;>
      cases he : env.extractFails <;>
      simp

/-- Claim C8: scoped page contexts. For every environment (success, any
navigation, script or extraction failure), the visit operations acquire
their page context first, close it exactly once, and close it last before
returning - the `finally` release; when the acquisition itself rejects, no
page context exists and none is closed. Shown for `visitCustomUrl` under
arbitrary options and for `visitAnimepahe`. -/
theorem claim_c8_page_released (env : VisitEnv) (o : VisitOptions) :
    (env.newPageFails = false →
      (∃ mid, (visitCustomUrl env o).2 =
          PageEvent.opened :: mid ++ [PageEvent.closed] ∧
        PageEvent.closed ∉ mid ∧ PageEvent.opened ∉ mid) ∧
      (∃ mid, (visitAnimepahe env).2 =
          PageEvent.opened :: mid ++ [PageEvent.closed] ∧
        PageEvent.closed ∉ mid ∧ PageEvent.opened ∉ mid)) ∧
    (env.newPageFails = true →
      (visitCustomUrl env o).2 = [] ∧ (visitAnimepahe env).2 = []) := by
  constructor
  · intro h
    constructor
    · refine ⟨(visitBody env o).2, ?_,
        (visitBody_no_page_boundary env o).1,
        (visitBody_no_page_boundary env o).2⟩
      simp [visitCustomUrl, h]
    · refine ⟨(visitAnimepaheBody env).2, ?_,
        (visitAnimepaheBody_no_page_boundary env).1,
        (visitAnimepaheBody_no_page_boundary env).2⟩
      simp [visitAnimepahe, h]
  · intro h
    exact ⟨by simp [visitCustomUrl, h], by simp [visitAnimepahe, h]⟩

/-- Witness for C8 at the default environment (every step succeeds). -/
theorem claim_c8_page_released_witness :
    (∃ mid, (visitCustomUrl {} {}).2 =
        PageEvent.opened :: mid ++ [PageEvent.closed] ∧
      PageEvent.closed ∉ mid ∧ PageEvent.opened ∉ mid) ∧
    (∃ mid, (visitAnimepahe {}).2 =
        PageEvent.opened :: mid ++ [PageEvent.closed] ∧
      PageEvent.closed ∉ mid ∧ PageEvent.opened ∉ mid) :=
  (claim_c8_page_released {} {}).1 rfl

/-- Claim C9: `destroy` is idempotent. A second call re-runs the same two
guarded effects on fields the first call never cleared, but descheduling an
already-cleared timer and closing an already-closed browser are no-ops, so
the state after the second call equals the state after the first, with the
timer still cancelled and the browser still closed. -/
theorem claim_c9_destroy_idempotent (s : LifecycleState) :
    destroy (destroy s) = destroy s ∧
    (s.collectionInterval.isSome = true → (destroy s).timerActive = false) ∧
    (s.browser.isSome = true → (destroy s).browserOpen = false) := by
  obtain ⟨ci, br, ta, bo⟩ := s
  cases ci <;> cases br <;>
    simp [destroy, clearIntervalFx, browserCloseFx]

/-- A running service: timer scheduled, browser open. -/
def c9Live : LifecycleState :=
  { collectionInterval := some 1, browser := some 1,
    timerActive := true, browserOpen := true }

/-- Witness for C9 at a live service state. -/
theorem claim_c9_destroy_idempotent_witness :
    destroy (destroy c9Live) = destroy c9Live ∧
    (destroy c9Live).timerActive = false ∧
    (destroy c9Live).browserOpen = false :=
  ⟨(claim_c9_destroy_idempotent c9Live).1,
   (claim_c9_destroy_idempotent c9Live).2.1 rfl,
   (claim_c9_destroy_idempotent c9Live).2.2 rfl⟩

/-- Claim C10: before the first cycle has ever completed (`lastUpdated`
still null) the snapshot route answers the 503 not-yet-collected error, not
an empty snapshot; once `lastUpdated` is set (to a non-empty timestamp, the
only kind the code produces) it answers the records view. -/
theorem claim_c10_snapshot_gate (st : ServiceState) :
    (st.cookies.lastUpdated = none →
      getRoute st = GetResponse.notYetCollected) ∧
    (∀ t, st.cookies.lastUpdated = some t → t ≠ "" →
      getRoute st = GetResponse.okView st.cookies.animepahe
        st.cookies.paheWin st.cookies.kiwik t) := by
  constructor
  · intro h; simp [getRoute, h]
  · intro t h ht; simp [getRoute, h, ht]

/-- A state whose first cycle has completed. -/
def c10ReadyState : ServiceState :=
  { cookies :=
      { animepahe := some "a=1", paheWin := none, kiwik := some "k=3",
        lastUpdated := some "T2" }
    isCollecting := false }

/-- Witness for C10: the fresh state is gated, the ready state is served. -/
theorem claim_c10_snapshot_gate_witness :
    getRoute { cookies := initialCookieStore, isCollecting := false } =
      GetResponse.notYetCollected ∧
    getRoute c10ReadyState =
      GetResponse.okView (some "a=1") none (some "k=3") "T2" :=
  ⟨(claim_c10_snapshot_gate
      { cookies := initialCookieStore, isCollecting := false }).1 rfl,
   (claim_c10_snapshot_gate c10ReadyState).2 "T2" rfl (by decide)⟩
